import Mathlib

/-!
Verification of the Mercury2 Hardware Manager core against its design
specification.

The Python sources are embedded shallowly:

* hwm/hardware/devices/drivers/driver.py, class Driver: the reservation state
  (attributes allow_concurrent_use, _use_count, _locked) becomes the structure
  Driver; reserve_device and free_device become pure state transformers, with
  a raised DeviceInUse modelled as Except.error (the source raises before any
  mutation, so an error leaves the state unchanged).
* hwm/network/command/command.py, class Command: JSON values become the
  inductive Json; json.loads of the raw text is modelled by an Option Json
  input (none when the text is malformed); validate_command,
  _populate_command_attributes and build_command_response become pure
  functions, with time.time() passed in explicitly.
* hwm/network/command/parser.py, class CommandParser: the twisted deferred
  callback/errback chain is modelled by Except values threaded through the
  stages in the order the chain fires them; a value in Except.ok corresponds
  to a result delivered on the callback chain, a value in Except.error to a
  Failure travelling on the errback chain.
* Python dictionaries are modelled as association lists looked up by first
  binding; dict(a.items() + b.items()) is modelled by listing the entries of
  b before those of a, so that the entries of b win on a key clash.

The Pipeline class (hwm/hardware/pipelines/pipeline.py) is not among the
provided sources, only its unit tests are; its operations are modelled from
the specification text where needed and marked as such.
-/

namespace Mercury2

/-- Association-list lookup, returning the first binding of the key.  Models
access to a Python dictionary with unique keys. -/
def alist_get {α : Type} : List (String × α) → String → Option α
  | [], _ => none
  | (k, v) :: rest, key => if k = key then some v else alist_get rest key

/-! ## Device driver reservation (driver.py, class Driver) -/

/-- Reservation-relevant state of one device driver.  Embeds the attributes
set by the constructor of class Driver: allow_concurrent_use, the private
counter _use_count (a Python int, so modelled as Int) and the private flag
_locked. -/
structure Driver where
  allow_concurrent_use : Bool
  use_count : Int
  locked : Bool
deriving Repr, DecidableEq

/-- Errors raised by the driver reservation methods. -/
inductive DriverError
  | deviceInUse
deriving Repr, DecidableEq

/-- Embeds the property Driver.is_locked, which returns the private flag. -/
def Driver.is_locked (d : Driver) : Bool :=
  d.locked

/-- Embeds the property Driver.is_active: true iff _use_count is nonzero. -/
def Driver.is_active (d : Driver) : Bool :=
  d.use_count != 0

/-- Embeds Driver.reserve_device.  The source raises DeviceInUse before any
mutation when the device is exclusive and locked; otherwise it sets _locked
(in the exclusive branch) and then increments _use_count in both branches. -/
def Driver.reserve_device (d : Driver) : Except DriverError Driver :=
  if !d.allow_concurrent_use then
    if d.is_locked then
      Except.error DriverError.deviceInUse
    else
      Except.ok { d with locked := true, use_count := d.use_count + 1 }
  else
    Except.ok { d with use_count := d.use_count + 1 }

/-- Embeds Driver.free_device: clears _locked when the device is exclusive,
then sets _use_count to 0 if decrementing it would make it negative, and to
the decremented value otherwise. -/
def Driver.free_device (d : Driver) : Driver :=
  let d1 := if !d.allow_concurrent_use then { d with locked := false } else d
  { d1 with use_count := if d1.use_count - 1 < 0 then 0 else d1.use_count - 1 }

/-- One call against a driver, for stating properties about call sequences. -/
inductive DriverOp
  | reserve
  | free
deriving Repr, DecidableEq

/-- Applies one call to the driver state.  A DeviceInUse raise leaves the
state unchanged, because the source raises before mutating anything. -/
def Driver.apply_op (d : Driver) : DriverOp → Driver
  | DriverOp.reserve =>
      match d.reserve_device with
      | Except.ok d1 => d1
      | Except.error _ => d
  | DriverOp.free => d.free_device

/-- The driver state produced by the constructor of class Driver:
_use_count = 0 and _locked = False. -/
def Driver.init (allow_concurrent_use : Bool) : Driver :=
  { allow_concurrent_use := allow_concurrent_use, use_count := 0, locked := false }

/-- Runs a sequence of calls against a driver state. -/
def Driver.run (d : Driver) (ops : List DriverOp) : Driver :=
  ops.foldl Driver.apply_op d

/-- The driver state invariant: the use counter is never negative; on an
exclusive device the lock is held exactly while the counter is positive and
the counter never exceeds one; on a concurrent device the lock is never
held. -/
def Driver.inv (d : Driver) : Prop :=
  0 ≤ d.use_count ∧
  (d.allow_concurrent_use = false → (d.locked = true ↔ 0 < d.use_count) ∧ d.use_count ≤ 1) ∧
  (d.allow_concurrent_use = true → d.locked = false)

/-! ## JSON values and the command model (command.py, class Command) -/

/-- JSON values, as produced by json.loads.  Objects are association lists;
json.loads deduplicates keys, so lookups take the first binding. -/
inductive Json
  | null
  | bool (b : Bool)
  | num (n : Int)
  | str (s : String)
  | arr (items : List Json)
  | obj (fields : List (String × Json))

/-- Extracts a Python string from a JSON value. -/
def Json.as_string : Json → Option String
  | Json.str s => some s
  | _ => none

/-- A Draft3 type check for strings. -/
def Json.is_string : Json → Bool
  | Json.str _ => true
  | _ => false

/-- A Draft3 type check for objects. -/
def Json.is_object : Json → Bool
  | Json.obj _ => true
  | _ => false

/-- Key access on a JSON object, as in command_json of the source. -/
def Json.get : Json → String → Option Json
  | Json.obj fields, key => alist_get fields key
  | _, _ => none

/-- Embeds the Draft3 schema declared inside Command.validate_command: the
instance must be an object with a required string property command, an
optional string property device_id and an optional object property
parameters; additional properties are unconstrained. -/
def command_schema_valid (j : Json) : Bool :=
  j.is_object &&
  (match j.get "command" with
   | some v => v.is_string
   | none => false) &&
  (match j.get "device_id" with
   | some v => v.is_string
   | none => true) &&
  (match j.get "parameters" with
   | some v => v.is_object
   | none => true)

/-- State of one Command instance.  command_raw is the result of json.loads
on the raw text (none when the text is malformed); the request reference is
kept opaque as an optional string. -/
structure Command where
  request : Option String
  time_received : Int
  command_raw : Option Json
  command_json : Option Json
  valid : Bool
  command : Option String
  device_id : Option String
  parameters : Option Json

/-- The state set up by the constructor of class Command: command_json is
None, valid is False, and the convenience attributes start as None, None and
the empty dict respectively. -/
def Command.init (request : Option String) (time_received : Int) (raw_command : Option Json) :
    Command :=
  { request := request, time_received := time_received, command_raw := raw_command,
    command_json := none, valid := false,
    command := none, device_id := none, parameters := some (Json.obj []) }

/-- Embeds Command._populate_command_attributes: only acts when the command
has been validated and parsed; device_id falls back to None when absent, and
so does parameters (the source overwrites the initial empty dict with None,
not with an empty dict). -/
def Command.populate_command_attributes (c : Command) : Command :=
  match c.valid, c.command_json with
  | true, some j =>
      { c with
          command := (j.get "command").bind Json.as_string,
          device_id := (j.get "device_id").bind Json.as_string,
          parameters := j.get "parameters" }
  | _, _ => c

/-- A Python exception travelling on a twisted errback chain.  The field
error_parameters models the attribute of the same name: none when the
exception does not carry the attribute at all, some none when the attribute
is the Python value None, and some (some params) when it is a dictionary. -/
structure Failure where
  message : String
  error_parameters : Option (Option (List (String × Json)))

/-- The CommandMalformed failure produced by Command.validate_command. -/
def commandMalformedFailure : Failure :=
  { message := "The submitted command contained a malformed JSON string.",
    error_parameters := none }

/-- The CommandInvalidSchema failure produced by Command.validate_command. -/
def commandInvalidSchemaFailure : Failure :=
  { message := "The submitted command did not conform to the command schema for command type: Command",
    error_parameters := none }

/-- Embeds Command.validate_command.  Returns the updated command state and
the value placed on the returned deferred: Except.ok True on the callback
chain after successful validation, or a pre-fired failure. -/
def Command.validate_command (c : Command) : Command × Except Failure Bool :=
  match c.command_raw with
  | none => (c, Except.error commandMalformedFailure)
  | some j =>
    let c1 := { c with command_json := some j }
    if command_schema_valid j then
      ({ c1 with valid := true }.populate_command_attributes, Except.ok true)
    else
      (c1, Except.error commandInvalidSchemaFailure)

/-- Python truthiness of an optional string: None and the empty string are
falsy. -/
def truthy (s : Option String) : Bool :=
  match s with
  | none => false
  | some s => s != ""

/-- The dictionary returned by Command.build_command_response: the request
reference and the JSON response (kept structured rather than serialized). -/
structure Response where
  request : Option String
  json_response : List (String × Json)

/-- Embeds Command.build_command_response.  time.time() is passed in as now;
the device_id field is included exactly when the attribute is truthy. -/
def Command.build_command_response (c : Command) (success : Bool)
    (command_results : List (String × Json)) (now : Int) : Response :=
  let fields := [("received_at", Json.num c.time_received),
                 ("completed_at", Json.num now),
                 ("status", Json.str (if success then "okay" else "error"))]
  let fields :=
    match c.device_id with
    | some s => if s != "" then fields ++ [("device_id", Json.str s)] else fields
    | none => fields
  { request := c.request, json_response := fields ++ [("result", Json.obj command_results)] }

/-! ## The command parser (parser.py, class CommandParser) -/

/-- A command handler as the parser sees it: has_command name models
hasattr(handler, command_<name>); run_command models calling the bound
method, which returns a result dictionary or raises. -/
structure CommandHandler where
  has_command : String → Bool
  run_command : String → Command → Except Failure (List (String × Json))

/-- Models dict(a.items() + b.items()) from CommandParser._command_error:
the entries of b win on a key clash, which under first-binding lookup means
listing b before a. -/
def py_dict_merge (a b : List (String × Json)) : List (String × Json) :=
  b ++ a

/-- The AttributeError raised inside _command_error when the failure carries
error_parameters = None: None.items() does not exist.  The exception carries
no error_parameters attribute of its own. -/
def attributeErrorNoneItems : Failure :=
  { message := "AttributeError: NoneType object has no attribute items",
    error_parameters := none }

/-- The UnboundLocalError raised inside _run_command when device_id is set:
the device branch of the source only prints a placeholder and never assigns
command_handler, so the following hasattr call evaluates an unbound local. -/
def unboundLocalCommandHandler : Failure :=
  { message := "UnboundLocalError: local variable command_handler referenced before assignment",
    error_parameters := none }

/-- The CommandError raised by _run_command when the chosen handler has no
method for the command name; it carries the invalid_command metadata. -/
def commandNotFoundInHandler (handler_string command_name : String) : Failure :=
  { message := "The received command could not be located in the " ++ handler_string ++
               " command handler.",
    error_parameters := some (some [("invalid_command", Json.str command_name)]) }

/-- Embeds CommandParser._command_error: builds the error response envelope,
merging in the error_parameters dictionary when the attribute holds one; if
the attribute holds None the merge itself raises (AttributeError), which
travels further on the errback chain. -/
def CommandParser.command_error (failure : Failure) (failed_command : Command) (now : Int) :
    Except Failure Response :=
  let error_message : List (String × Json) := [("error_message", Json.str failure.message)]
  match failure.error_parameters with
  | none =>
      Except.ok (failed_command.build_command_response false error_message now)
  | some none =>
      Except.error attributeErrorNoneItems
  | some (some params) =>
      Except.ok (failed_command.build_command_response false (py_dict_merge params error_message) now)

/-- Embeds CommandParser._run_command together with the callbacks it attaches
to the execution deferred (_command_complete on success, _command_error on
failure).  When device_id is truthy the source never assigns a handler (the
branch is a stub) and the hasattr test raises UnboundLocalError; otherwise
the system handler is used. -/
def CommandParser.run_command_stage (system_handler : CommandHandler) (valid_command : Command)
    (now : Int) : Except Failure Response :=
  if truthy valid_command.device_id then
    Except.error unboundLocalCommandHandler
  else
    let command_name := match valid_command.command with | some s => s | none => ""
    if !(system_handler.has_command command_name) then
      Except.error (commandNotFoundInHandler "system" command_name)
    else
      match system_handler.run_command command_name valid_command with
      | Except.ok command_results =>
          Except.ok (valid_command.build_command_response true command_results now)
      | Except.error f => CommandParser.command_error f valid_command now

/-- Embeds CommandParser.parse_command: validate, then _run_command on the
callback chain with _command_error as the following errback; a failure from
the execution stage (including one raised inside the inner _command_error)
is picked up by the outer _command_error. -/
def CommandParser.parse_command (system_handler : CommandHandler) (raw_command : Option Json)
    (request : Option String) (time_command_received : Int) (now : Int) :
    Except Failure Response :=
  let new_command := Command.init request time_command_received raw_command
  match new_command.validate_command with
  | (valid_command, Except.ok _) =>
      match CommandParser.run_command_stage system_handler valid_command now with
      | Except.ok response => Except.ok response
      | Except.error f => CommandParser.command_error f valid_command now
  | (failed_command, Except.error f) => CommandParser.command_error f failed_command now

/-! ## Device output fan-out (driver.py, Driver.write_output) -/

/-- The view Driver.write_output has of one registered pipeline: the
is_active property and the identity of the designated output device.  The
source compares object identity (self is pipeline.output_device); devices
are registry-owned, so identity is modelled by a numeric token. -/
structure PipelineHandle where
  is_active : Bool
  output_device : Option Nat

/-- Embeds Driver.write_output's fan-out decision over associated_pipelines:
returns, in iteration order, the ids of the pipelines to which the output
chunk is written.  A pipeline receives the chunk only when it is active and
designates this device as its output device. -/
def write_output_targets (self_device : Nat) : List (String × PipelineHandle) → List String
  | [] => []
  | (pipeline_id, p) :: rest =>
    if p.is_active then
      if p.output_device = some self_device then
        pipeline_id :: write_output_targets self_device rest
      else
        write_output_targets self_device rest
    else
      write_output_targets self_device rest

/-! ## Pipeline locking and session registration

Class Pipeline of hwm/hardware/pipelines/pipeline.py is not among the
provided sources (only its unit tests in tests/test_pipeline.py are), so the
operations below are modelled from the specification text, sections 4.2 and
4.3, against the Driver embedding above. -/

/-- The device registry: device id to driver state. -/
abbrev Registry := List (String × Driver)

/-- Looks a device up in the registry. -/
def lookup_device (reg : Registry) (device_id : String) : Option Driver :=
  alist_get reg device_id

/-- Replaces the state of the named device (first binding) in the registry. -/
def update_device : Registry → String → Driver → Registry
  | [], _, _ => []
  | (k, v) :: rest, key, d =>
      if k = key then (k, d) :: rest else (k, v) :: update_device rest key d

/-- Frees the listed devices in order (the rollback path frees the acquired
devices, most recently acquired first). -/
def free_devices : Registry → List String → Registry
  | reg, [] => reg
  | reg, i :: rest =>
      free_devices
        (match lookup_device reg i with
         | some d => update_device reg i d.free_device
         | none => reg) rest

/-- Outcome of the device reservation loop of reserve_pipeline. -/
structure ReserveDevicesResult where
  registry : Registry
  success : Bool

/-- Modelled from the spec: the reservation loop of Pipeline.reserve_pipeline
(section 4.2) attempts to reserve each device in a fixed order and, on the
first DeviceInUse, frees every device successfully reserved earlier in the
same attempt. -/
def reserve_devices_in_order : Registry → List String → List String → ReserveDevicesResult
  | reg, [], _ => { registry := reg, success := true }
  | reg, i :: rest, acquired =>
    match lookup_device reg i with
    | some d =>
      match d.reserve_device with
      | Except.ok d1 => reserve_devices_in_order (update_device reg i d1) rest (i :: acquired)
      | Except.error _ => { registry := free_devices reg acquired, success := false }
    | none => { registry := free_devices reg acquired, success := false }

/-- The pipeline-level lock state and the fixed order of constituent device
ids. -/
structure Pipeline where
  device_ids : List String
  in_use : Bool

/-- The error reserve_pipeline raises. -/
inductive PipelineError
  | pipelineInUse
deriving Repr, DecidableEq

/-- Result of reserve_pipeline: the registry after the call, the pipeline
after the call, and the raised error, if any. -/
structure ReserveOutcome where
  registry : Registry
  pipeline : Pipeline
  error : Option PipelineError

/-- Modelled from the spec: Pipeline.reserve_pipeline (section 4.2).  Fails
immediately with PipelineInUse when in_use is already true; otherwise sets
in_use and reserves each device in order; on the first DeviceInUse it rolls
back the devices reserved in this attempt, resets in_use to false and
re-raises PipelineInUse. -/
def Pipeline.reserve_pipeline (p : Pipeline) (reg : Registry) : ReserveOutcome :=
  if p.in_use then
    { registry := reg, pipeline := p, error := some PipelineError.pipelineInUse }
  else
    let res := reserve_devices_in_order reg p.device_ids []
    if res.success then
      { registry := res.registry, pipeline := { p with in_use := true }, error := none }
    else
      { registry := res.registry, pipeline := { p with in_use := false },
        error := some PipelineError.pipelineInUse }

/-- Every device reachable through the registry satisfies the driver state
invariant. -/
def RegInv (reg : Registry) : Prop :=
  ∀ device_id d, lookup_device reg device_id = some d → d.inv

/-- A device state that holds a reservation: positive use count, and locked
when the device is exclusive. -/
def Driver.reserved_state (d : Driver) : Prop :=
  (d.allow_concurrent_use = false → d.locked = true) ∧ 0 < d.use_count

/-- A session as seen by register_session: its reservation configuration may
specify an active-services selection (service type paired with service id). -/
structure Session where
  active_services : Option (List (String × String))

/-- The service and session state of a pipeline: registered services (type
to registered ids), the per-session active selection and the current
session. -/
structure ServicePipeline where
  services : List (String × List String)
  active_services : List (String × String)
  current_session : Option Session

/-- Errors raised by register_session. -/
inductive SessionError
  | sessionAlreadyRegistered
  | serviceInvalid
deriving Repr, DecidableEq

/-- True when the service type has a registered service with the given id. -/
def service_registered (services : List (String × List String))
    (service_type service_id : String) : Bool :=
  match alist_get services service_type with
  | some ids => ids.contains service_id
  | none => false

/-- True when every selected type/id pair is registered. -/
def valid_active_services (services : List (String × List String))
    (selection : List (String × String)) : Bool :=
  selection.all (fun ti => service_registered services ti.1 ti.2)

/-- Modelled from the spec: Pipeline.register_session (section 4.3).  Fails
with SessionAlreadyRegistered when a session is set; otherwise records the
session and, when the configuration specifies active_services, validates
each type/id pair, raising ServiceInvalid and rolling current_session back
to unset when any selection is invalid. -/
def ServicePipeline.register_session (p : ServicePipeline) (s : Session) :
    ServicePipeline × Option SessionError :=
  match p.current_session with
  | some _ => (p, some SessionError.sessionAlreadyRegistered)
  | none =>
    let p1 := { p with current_session := some s }
    match s.active_services with
    | none => (p1, none)
    | some selection =>
      if valid_active_services p.services selection then
        ({ p1 with active_services := selection }, none)
      else
        ({ p1 with current_session := none }, some SessionError.serviceInvalid)

/-! ## Concrete instances used by witnesses and counterexamples -/

/-- A free exclusive device, as built by the driver constructor. -/
def demoFreeDevice : Driver := Driver.init false

/-- An exclusive device already reserved by another pipeline. -/
def demoLockedDevice : Driver :=
  { allow_concurrent_use := false, use_count := 1, locked := true }

/-- A registry with one free and one already-reserved device. -/
def demoRegistry : Registry :=
  [("test_device1", demoFreeDevice), ("test_device3", demoLockedDevice)]

/-- A pipeline that reserves the free device first and then hits the
reserved one. -/
def demoPipeline : Pipeline :=
  { device_ids := ["test_device1", "test_device3"], in_use := false }

/-- A pipeline with one registered tracker service and no session. -/
def demoServicePipeline : ServicePipeline :=
  { services := [("tracker", ["sgp4"])], active_services := [], current_session := none }

/-- A session whose configuration selects a service id that is not
registered. -/
def demoSession : Session :=
  { active_services := some [("tracker", "nonexistent_service")] }

/-- A system handler that knows every command name and always succeeds, to
show that device-targeted commands fail regardless of the handlers. -/
def okSystemHandler : CommandHandler :=
  { has_command := fun _ => true, run_command := fun _ _ => Except.ok [] }

/-- A validated request that targets a device. -/
def deviceTargetedCommand : Option Json :=
  some (Json.obj [("command", Json.str "test_command"), ("device_id", Json.str "test_device")])

/-- A schema-valid request without a parameters field. -/
def commandWithoutParameters : Option Json :=
  some (Json.obj [("command", Json.str "test_command")])

/-- The spec's example request with a parameters mapping. -/
def commandWithParameters : Option Json :=
  some (Json.obj [("command", Json.str "test_command"),
                  ("parameters", Json.obj [("test_parameter", Json.num 5)])])

/-- The command name string used for handler lookup and dispatch,
as in the concatenation command_<name> of the source. -/
def command_name_of (c : Command) : String :=
  match c.command with
  | some s => s
  | none => ""

/-- The fully successful path through parse_command: validation succeeds,
the validated command carries no (truthy) device_id, the chosen system
handler has a method for the command name, and that method returns a result
rather than raising.  A command run that is not of this shape is an error of
some origin: malformed input, schema violation, a device-targeted command
(the unbound handler), an unresolved handler method, or a handler raise. -/
def command_execution_succeeds (system_handler : CommandHandler) (raw_command : Option Json)
    (request : Option String) (t : Int) : Prop :=
  ∃ c1, (Command.init request t raw_command).validate_command = (c1, Except.ok true) ∧
    truthy c1.device_id = false ∧
    system_handler.has_command (command_name_of c1) = true ∧
    ∃ results, system_handler.run_command (command_name_of c1) c1 = Except.ok results

/-! ## Theorems -/

/-- Case analysis of Driver.reserve_device, stated once so that later proofs
do not have to unfold the definition. -/
theorem Driver.reserve_spec (d : Driver) :
    (d.allow_concurrent_use = false → d.locked = true →
      d.reserve_device = Except.error DriverError.deviceInUse) ∧
    (d.allow_concurrent_use = false → d.locked = false →
      d.reserve_device =
        Except.ok { allow_concurrent_use := false, use_count := d.use_count + 1, locked := true }) ∧
    (d.allow_concurrent_use = true →
      d.reserve_device =
        Except.ok { allow_concurrent_use := true, use_count := d.use_count + 1, locked := d.locked }) := by
  obtain ⟨cb, uc, lk⟩ := d
  cases cb <;> cases lk <;>
    simp [Driver.reserve_device, Driver.is_locked]

/-- Field-wise description of Driver.free_device. -/
theorem Driver.free_spec (d : Driver) :
    (d.free_device).allow_concurrent_use = d.allow_concurrent_use ∧
    (d.free_device).locked = (if d.allow_concurrent_use then d.locked else false) ∧
    (d.free_device).use_count = (if d.use_count - 1 < 0 then 0 else d.use_count - 1) := by
  obtain ⟨cb, uc, lk⟩ := d
  cases cb <;> simp [Driver.free_device]

theorem Driver.inv_init (b : Bool) : (Driver.init b).inv := by
  cases b <;> simp [Driver.init, Driver.inv]

theorem Driver.inv_reserve (d d1 : Driver) (h : d.inv)
    (hres : d.reserve_device = Except.ok d1) : d1.inv := by
  obtain ⟨h0, hexc, hconc⟩ := h
  obtain ⟨hrlock, hrfree, hrconc⟩ := Driver.reserve_spec d
  cases hb : d.allow_concurrent_use with
  | false =>
    cases hl : d.locked with
    | true =>
      rw [hrlock hb hl] at hres
      exact absurd hres (by simp)
    | false =>
      rw [hrfree hb hl] at hres
      obtain ⟨hiff, hle⟩ := hexc hb
      cases hres
      refine ⟨by simp; omega, ?_, by intro habs; simp at habs⟩
      intro _
      have huc : d.use_count = 0 := by
        have : ¬ (0 < d.use_count) := fun hpos => by
          rw [hiff.mpr hpos] at hl
          exact Bool.noConfusion hl
        omega
      simp [huc]
  | true =>
    rw [hrconc hb] at hres
    cases hres
    refine ⟨by simp; omega, by intro habs; simp at habs, ?_⟩
    intro _
    simpa using hconc hb

theorem Driver.inv_free (d : Driver) (h : d.inv) : d.free_device.inv := by
  obtain ⟨h0, hexc, hconc⟩ := h
  obtain ⟨hfa, hfl, hfu⟩ := Driver.free_spec d
  cases hb : d.allow_concurrent_use with
  | false =>
    obtain ⟨hiff, hle⟩ := hexc hb
    refine ⟨by rw [hfu]; split <;> omega, ?_, ?_⟩
    · intro _
      rw [hfl, hfu, hb]
      simp only [Bool.false_eq_true, if_false]
      constructor
      · constructor
        · intro habs
          exact absurd habs (by simp)
        · intro hpos
          exfalso
          split at hpos <;> omega
      · split <;> omega
    · intro habs
      rw [hfa, hb] at habs
      exact Bool.noConfusion habs
  | true =>
    refine ⟨by rw [hfu]; split <;> omega, ?_, ?_⟩
    · intro habs
      rw [hfa, hb] at habs
      exact Bool.noConfusion habs
    · intro _
      rw [hfl, hb]
      simpa using hconc hb

theorem Driver.inv_apply_op (d : Driver) (op : DriverOp) (h : d.inv) :
    (d.apply_op op).inv := by
  cases op with
  | reserve =>
    rw [Driver.apply_op]
    cases hres : d.reserve_device with
    | ok d1 => exact Driver.inv_reserve d d1 h hres
    | error e => exact h
  | free => exact Driver.inv_free d h

theorem Driver.inv_run (d : Driver) (ops : List DriverOp) (h : d.inv) :
    (d.run ops).inv := by
  induction ops generalizing d with
  | nil => exact h
  | cons op rest ih =>
    exact ih (d.apply_op op) (Driver.inv_apply_op d op h)

/-- Neither call changes the concurrency configuration of a driver. -/
theorem Driver.apply_op_allow (d : Driver) (op : DriverOp) :
    (d.apply_op op).allow_concurrent_use = d.allow_concurrent_use := by
  cases op with
  | reserve =>
    rw [Driver.apply_op]
    obtain ⟨hrlock, hrfree, hrconc⟩ := Driver.reserve_spec d
    cases hb : d.allow_concurrent_use with
    | false =>
      cases hl : d.locked with
      | true => rw [hrlock hb hl]; exact hb
      | false => rw [hrfree hb hl]
    | true => rw [hrconc hb]
  | free => exact (Driver.free_spec d).1

theorem Driver.run_allow (d : Driver) (ops : List DriverOp) :
    (d.run ops).allow_concurrent_use = d.allow_concurrent_use := by
  induction ops generalizing d with
  | nil => rfl
  | cons op rest ih =>
    simp only [Driver.run, List.foldl_cons] at ih ⊢
    rw [ih (d.apply_op op), Driver.apply_op_allow]

theorem Driver.run_nil (d : Driver) : d.run [] = d := rfl

theorem Driver.run_cons (d : Driver) (op : DriverOp) (ops : List DriverOp) :
    d.run (op :: ops) = (d.apply_op op).run ops := rfl

theorem Driver.run_append (d : Driver) (a b : List DriverOp) :
    d.run (a ++ b) = (d.run a).run b :=
  List.foldl_append Driver.apply_op d a b

/-- C2: for every exclusive device (allow_concurrent_use = false),
reserve_device raises DeviceInUse and changes no state when the device is
locked (a raise happens before any mutation, so the post state equals the
pre state); when unlocked it sets locked and increments use_count; a second
reserve_device after a successful one fails with DeviceInUse; and after
free_device a subsequent reserve_device succeeds. -/
theorem C2_exclusive_reserve_free (d : Driver) (h : d.allow_concurrent_use = false) :
    (d.is_locked = true →
      d.reserve_device = Except.error DriverError.deviceInUse ∧
      d.apply_op DriverOp.reserve = d) ∧
    (d.is_locked = false →
      d.reserve_device =
        Except.ok { allow_concurrent_use := false, use_count := d.use_count + 1, locked := true }) ∧
    (∀ d1, d.reserve_device = Except.ok d1 →
      d1.reserve_device = Except.error DriverError.deviceInUse) ∧
    (∃ d2, (d.free_device).reserve_device = Except.ok d2) := by
  obtain ⟨hrlock, hrfree, _⟩ := Driver.reserve_spec d
  obtain ⟨hfa, hfl, _⟩ := Driver.free_spec d
  refine ⟨?_, ?_, ?_, ?_⟩
  · intro hl
    simp only [Driver.is_locked] at hl
    have he := hrlock h hl
    exact ⟨he, by rw [Driver.apply_op, he]⟩
  · intro hl
    simp only [Driver.is_locked] at hl
    exact hrfree h hl
  · intro d1 hok
    cases hl : d.locked with
    | true =>
      rw [hrlock h hl] at hok
      exact absurd hok (by simp)
    | false =>
      rw [hrfree h hl] at hok
      cases hok
      exact (Driver.reserve_spec _).1 rfl rfl
  · obtain ⟨_, h2free, _⟩ := Driver.reserve_spec d.free_device
    have ha : d.free_device.allow_concurrent_use = false := by rw [hfa]; exact h
    have hl : d.free_device.locked = false := by rw [hfl, h]; simp
    exact ⟨_, h2free ha hl⟩

/-- Witness for C2 at the freshly constructed exclusive device. -/
theorem C2_exclusive_reserve_free_witness :
    ∃ d2, ((Driver.init false).free_device).reserve_device = Except.ok d2 :=
  (C2_exclusive_reserve_free (Driver.init false) rfl).2.2.2

/-- C3: along every call sequence from the constructor state, an exclusive
device is locked exactly while its use count is positive, and a concurrent
device is never locked. -/
theorem C3_lock_use_count_invariant (b : Bool) (ops : List DriverOp) :
    (b = false →
      (((Driver.init b).run ops).is_locked = true ↔ 0 < ((Driver.init b).run ops).use_count)) ∧
    (b = true → ((Driver.init b).run ops).is_locked = false) := by
  obtain ⟨h0, hexc, hconc⟩ := Driver.inv_run (Driver.init b) ops (Driver.inv_init b)
  have hallow : ((Driver.init b).run ops).allow_concurrent_use = b := Driver.run_allow _ _
  constructor
  · intro hb
    subst hb
    simp only [Driver.is_locked]
    exact (hexc hallow).1
  · intro hb
    subst hb
    simp only [Driver.is_locked]
    exact hconc hallow

/-- Witness for C3 after a single reserve on an exclusive device. -/
theorem C3_lock_use_count_invariant_witness :
    ((Driver.init false).run [DriverOp.reserve]).is_locked = true ↔
      0 < ((Driver.init false).run [DriverOp.reserve]).use_count :=
  (C3_lock_use_count_invariant false [DriverOp.reserve]).1 rfl

/-- C10: along every call sequence from the constructor state, an exclusive
device's use count is 0 or 1: it can never be held more than once. -/
theorem C10_exclusive_use_count_bounded (ops : List DriverOp) :
    ((Driver.init false).run ops).use_count = 0 ∨
      ((Driver.init false).run ops).use_count = 1 := by
  obtain ⟨h0, hexc, _⟩ := Driver.inv_run (Driver.init false) ops (Driver.inv_init false)
  have hallow : ((Driver.init false).run ops).allow_concurrent_use = false :=
    Driver.run_allow _ _
  obtain ⟨_, hle⟩ := hexc hallow
  omega

theorem Driver.run_replicate_reserve (d : Driver) (hc : d.allow_concurrent_use = true) (n : Nat) :
    (d.run (List.replicate n DriverOp.reserve)).use_count = d.use_count + n ∧
    (d.run (List.replicate n DriverOp.reserve)).locked = d.locked ∧
    (d.run (List.replicate n DriverOp.reserve)).allow_concurrent_use = true := by
  induction n generalizing d with
  | zero =>
    refine ⟨by simp [Driver.run_nil], by simp [Driver.run_nil], ?_⟩
    rw [List.replicate_zero, Driver.run_nil]
    exact hc
  | succ k ih =>
    have hstep : d.apply_op DriverOp.reserve =
        { allow_concurrent_use := true, use_count := d.use_count + 1, locked := d.locked } := by
      rw [Driver.apply_op, (Driver.reserve_spec d).2.2 hc]
    rw [List.replicate_succ, Driver.run_cons, hstep]
    obtain ⟨h1, h2, h3⟩ :=
      ih { allow_concurrent_use := true, use_count := d.use_count + 1, locked := d.locked } rfl
    refine ⟨?_, h2, h3⟩
    rw [h1]
    push_cast
    ring

theorem Driver.run_replicate_free (d : Driver) (hc : d.allow_concurrent_use = true) (m : Nat)
    (h : (m : Int) ≤ d.use_count) :
    (d.run (List.replicate m DriverOp.free)).use_count = d.use_count - m := by
  induction m generalizing d with
  | zero => simp [Driver.run_nil]
  | succ k ih =>
    obtain ⟨hfa, _, hfu⟩ := Driver.free_spec d
    have huc : (d.free_device).use_count = d.use_count - 1 := by
      rw [hfu]
      have hge : ¬ (d.use_count - 1 < 0) := by push_cast at h; omega
      simp [hge]
    have hallow : (d.free_device).allow_concurrent_use = true := by rw [hfa]; exact hc
    have hrec := ih d.free_device hallow (by rw [huc]; push_cast at h ⊢; omega)
    rw [List.replicate_succ, Driver.run_cons,
      show d.apply_op DriverOp.free = d.free_device from rfl, hrec, huc]
    push_cast
    ring

/-- C7: for concurrent-capable devices, reserve_device always succeeds, the
device is never locked along any call sequence from the constructor state,
after n reserves and m frees (m < n) the use count is n - m, free_device
never drives the use count below zero, and freeing an unreserved device is
not an error (it returns normally and leaves the fresh state unchanged). -/
theorem C7_concurrent_counting (n m : Nat) (h : m < n) :
    (∀ d : Driver, d.allow_concurrent_use = true → ∃ d1, d.reserve_device = Except.ok d1) ∧
    (∀ ops : List DriverOp, ((Driver.init true).run ops).is_locked = false) ∧
    ((Driver.init true).run
        (List.replicate n DriverOp.reserve ++ List.replicate m DriverOp.free)).use_count =
      (n : Int) - (m : Int) ∧
    (∀ d : Driver, 0 ≤ d.use_count → 0 ≤ d.free_device.use_count) ∧
    (Driver.init true).free_device = Driver.init true := by
  refine ⟨?_, ?_, ?_, ?_, ?_⟩
  · intro d hc
    exact ⟨_, (Driver.reserve_spec d).2.2 hc⟩
  · intro ops
    obtain ⟨_, _, hconc⟩ := Driver.inv_run (Driver.init true) ops (Driver.inv_init true)
    simp only [Driver.is_locked]
    exact hconc (Driver.run_allow _ _)
  · rw [Driver.run_append]
    obtain ⟨hn, _, hallow⟩ := Driver.run_replicate_reserve (Driver.init true) rfl n
    have huc : ((Driver.init true).run (List.replicate n DriverOp.reserve)).use_count = (n : Int) := by
      rw [hn]; simp [Driver.init]
    rw [Driver.run_replicate_free _ hallow m (by rw [huc]; omega), huc]
  · intro d h0
    obtain ⟨_, _, hfu⟩ := Driver.free_spec d
    rw [hfu]
    split <;> omega
  · decide

/-- Witness for C7 at two reserves followed by one free. -/
theorem C7_concurrent_counting_witness :
    ((Driver.init true).run
        (List.replicate 2 DriverOp.reserve ++ List.replicate 1 DriverOp.free)).use_count =
      ((2 : Nat) : Int) - ((1 : Nat) : Int) :=
  (C7_concurrent_counting 2 1 (by omega)).2.2.1

/-- C9: write_output delivers the chunk to exactly those registered
pipelines that are active and designate this device as their output device;
inactive pipelines, and pipelines with a different (or no) output device,
receive nothing. -/
theorem C9_write_output_fanout (self_device : Nat)
    (pipelines : List (String × PipelineHandle)) (pipeline_id : String) :
    pipeline_id ∈ write_output_targets self_device pipelines ↔
      ∃ p : PipelineHandle, (pipeline_id, p) ∈ pipelines ∧ p.is_active = true ∧
        p.output_device = some self_device := by
  induction pipelines with
  | nil => simp [write_output_targets]
  | cons hd rest ih =>
    obtain ⟨pid, ph⟩ := hd
    rw [write_output_targets]
    cases ha : ph.is_active with
    | true =>
      rw [if_pos rfl]
      by_cases ho : ph.output_device = some self_device
      · rw [if_pos ho]
        constructor
        · intro hmem
          rcases List.mem_cons.mp hmem with heq | hmem2
          · refine ⟨ph, ?_, ha, ho⟩
            rw [heq]
            exact List.mem_cons_self _ _
          · obtain ⟨p, hp, hact, hout⟩ := ih.mp hmem2
            exact ⟨p, List.mem_cons_of_mem _ hp, hact, hout⟩
        · rintro ⟨p, hp, hact, hout⟩
          rcases List.mem_cons.mp hp with heq | hmem2
          · rw [Prod.mk.injEq] at heq
            exact List.mem_cons.mpr (Or.inl heq.1)
          · exact List.mem_cons.mpr (Or.inr (ih.mpr ⟨p, hmem2, hact, hout⟩))
      · rw [if_neg ho, ih]
        constructor
        · rintro ⟨p, hp, hact, hout⟩
          exact ⟨p, List.mem_cons_of_mem _ hp, hact, hout⟩
        · rintro ⟨p, hp, hact, hout⟩
          rcases List.mem_cons.mp hp with heq | hmem2
          · rw [Prod.mk.injEq] at heq
            rw [heq.2] at hout
            exact absurd hout ho
          · exact ⟨p, hmem2, hact, hout⟩
    | false =>
      rw [if_neg Bool.false_ne_true, ih]
      constructor
      · rintro ⟨p, hp, hact, hout⟩
        exact ⟨p, List.mem_cons_of_mem _ hp, hact, hout⟩
      · rintro ⟨p, hp, hact, hout⟩
        rcases List.mem_cons.mp hp with heq | hmem2
        · rw [Prod.mk.injEq] at heq
          rw [heq.2, ha] at hact
          exact Bool.noConfusion hact
        · exact ⟨p, hmem2, hact, hout⟩

/-- C6: register_session fails with SessionAlreadyRegistered when a session
is already set, and when the configuration selects a service type or id that
is not registered it raises ServiceInvalid and leaves no session registered
(current_session rolled back to unset). -/
theorem C6_session_registration (p : ServicePipeline) (s : Session)
    (selection : List (String × String)) (service_type service_id : String) :
    (∀ s0, p.current_session = some s0 →
        p.register_session s = (p, some SessionError.sessionAlreadyRegistered)) ∧
    (p.current_session = none → s.active_services = some selection →
      (service_type, service_id) ∈ selection →
      service_registered p.services service_type service_id = false →
      (p.register_session s).2 = some SessionError.serviceInvalid ∧
      (p.register_session s).1.current_session = none) := by
  constructor
  · intro s0 hs0
    rw [ServicePipeline.register_session, hs0]
  · intro hnone hsel hmem hbad
    have hvalid : valid_active_services p.services selection = false := by
      rw [valid_active_services]
      by_contra habs
      have hall : selection.all (fun ti => service_registered p.services ti.1 ti.2) = true := by
        revert habs
        cases selection.all (fun ti => service_registered p.services ti.1 ti.2) <;> simp
      have := (List.all_eq_true.mp hall) (service_type, service_id) hmem
      simp only at this
      rw [hbad] at this
      exact Bool.noConfusion this
    simp only [ServicePipeline.register_session, hnone, hsel, hvalid, Bool.false_eq_true,
      if_false]
    constructor <;> trivial

/-- Witness for C6: a selection naming an unregistered service id is
rejected with ServiceInvalid and no session stays registered. -/
theorem C6_session_registration_witness :
    (demoServicePipeline.register_session demoSession).2 = some SessionError.serviceInvalid ∧
    (demoServicePipeline.register_session demoSession).1.current_session = none :=
  (C6_session_registration demoServicePipeline demoSession
      [("tracker", "nonexistent_service")] "tracker" "nonexistent_service").2
    rfl rfl (List.mem_singleton.mpr rfl) rfl

/-- After successful validation, the command state is the populated one. -/
theorem validate_command_of_schema_valid (request : Option String) (t : Int) (j : Json)
    (h : command_schema_valid j = true) :
    (Command.init request t (some j)).validate_command =
      ({ request := request, time_received := t, command_raw := some j, command_json := some j,
         valid := true,
         command := (j.get "command").bind Json.as_string,
         device_id := (j.get "device_id").bind Json.as_string,
         parameters := j.get "parameters" }, Except.ok true) := by
  rw [Command.validate_command]
  simp [Command.init, h, Command.populate_command_attributes]

/-- C8 counterexample: the schema-valid request without a parameters field
validates, but the parameters attribute ends as None (not as an empty
mapping): _populate_command_attributes overwrites the initial empty dict
with None when the field is absent. -/
theorem C8_counterexample_parameters_none :
    ((Command.init none 0 commandWithoutParameters).validate_command).1.valid = true ∧
    ((Command.init none 0 commandWithoutParameters).validate_command).1.parameters = none ∧
    ((Command.init none 0 commandWithoutParameters).validate_command).1.parameters ≠
      some (Json.obj []) := by
  have hp : ((Command.init none 0 commandWithoutParameters).validate_command).1.parameters
      = none := rfl
  refine ⟨rfl, hp, ?_⟩
  rw [hp]
  intro habs
  exact Option.noConfusion habs

/-- C8 (amended): after successful validation the command attribute holds
the request's command name, device_id holds the request's device_id or None
when absent, and parameters holds the request's parameters mapping or None
(not an empty mapping) when the request omits the field. -/
theorem C8_populated_attributes (request : Option String) (t : Int)
    (fields : List (String × Json))
    (h : command_schema_valid (Json.obj fields) = true) :
    ((Command.init request t (some (Json.obj fields))).validate_command).1.valid = true ∧
    (∀ name, alist_get fields "command" = some (Json.str name) →
      ((Command.init request t (some (Json.obj fields))).validate_command).1.command = some name) ∧
    (alist_get fields "device_id" = none →
      ((Command.init request t (some (Json.obj fields))).validate_command).1.device_id = none) ∧
    (∀ s, alist_get fields "device_id" = some (Json.str s) →
      ((Command.init request t (some (Json.obj fields))).validate_command).1.device_id = some s) ∧
    (alist_get fields "parameters" = none →
      ((Command.init request t (some (Json.obj fields))).validate_command).1.parameters = none) ∧
    (∀ ps, alist_get fields "parameters" = some ps →
      ((Command.init request t (some (Json.obj fields))).validate_command).1.parameters
        = some ps) := by
  rw [validate_command_of_schema_valid request t (Json.obj fields) h]
  refine ⟨rfl, ?_, ?_, ?_, ?_, ?_⟩
  · intro name hname
    simp [Json.get, hname, Json.as_string]
  · intro hdev
    simp [Json.get, hdev]
  · intro s hdev
    simp [Json.get, hdev, Json.as_string]
  · intro hpar
    simp [Json.get, hpar]
  · intro ps hpar
    simp [Json.get, hpar]

/-- Witness for C8 at the example request of the specification. -/
theorem C8_populated_attributes_witness :
    ((Command.init none 0 commandWithParameters).validate_command).1.command
      = some "test_command" ∧
    ((Command.init none 0 commandWithParameters).validate_command).1.parameters
      = some (Json.obj [("test_parameter", Json.num 5)]) :=
  ⟨(C8_populated_attributes none 0
      [("command", Json.str "test_command"),
       ("parameters", Json.obj [("test_parameter", Json.num 5)])] rfl).2.1
      "test_command" rfl,
   (C8_populated_attributes none 0
      [("command", Json.str "test_command"),
       ("parameters", Json.obj [("test_parameter", Json.num 5)])] rfl).2.2.2.2.2
      (Json.obj [("test_parameter", Json.num 5)]) rfl⟩

/-- C4: a validated command with a device_id never reaches a device command
handler: the device branch of _run_command is a stub that leaves the handler
variable unbound, so the call fails with an UnboundLocalError converted into
an error response, even though the system handler defines every command and
a device handler lookup was intended.  Evaluates the embedding at the
failing input. -/
theorem build_command_response_fields (c : Command) (success : Bool)
    (command_results : List (String × Json)) (now : Int) :
    alist_get (c.build_command_response success command_results now).json_response "received_at"
      = some (Json.num c.time_received) ∧
    alist_get (c.build_command_response success command_results now).json_response "completed_at"
      = some (Json.num now) ∧
    alist_get (c.build_command_response success command_results now).json_response "status"
      = some (Json.str (if success then "okay" else "error")) ∧
    alist_get (c.build_command_response success command_results now).json_response "result"
      = some (Json.obj command_results) := by
  cases hd : c.device_id with
  | none =>
    refine ⟨?_, ?_, ?_, ?_⟩ <;> simp [Command.build_command_response, hd, alist_get]
  | some s =>
    by_cases hs : s = ""
    · refine ⟨?_, ?_, ?_, ?_⟩ <;> simp [Command.build_command_response, hd, hs, alist_get]
    · refine ⟨?_, ?_, ?_, ?_⟩ <;> simp [Command.build_command_response, hd, hs, alist_get]

theorem command_error_eq (failure : Failure) (failed_command : Command) (now : Int) :
    CommandParser.command_error failure failed_command now =
      (match failure.error_parameters with
       | none =>
           Except.ok (failed_command.build_command_response false
             [("error_message", Json.str failure.message)] now)
       | some none =>
           Except.error attributeErrorNoneItems
       | some (some params) =>
           Except.ok (failed_command.build_command_response false
             (py_dict_merge params [("error_message", Json.str failure.message)]) now)) := rfl

theorem command_error_envelope (f : Failure) (c : Command) (now : Int)
    (h : f.error_parameters ≠ some none) :
    ∃ r, CommandParser.command_error f c now = Except.ok r ∧
      alist_get r.json_response "received_at" = some (Json.num c.time_received) ∧
      alist_get r.json_response "completed_at" = some (Json.num now) ∧
      alist_get r.json_response "status" = some (Json.str "error") ∧
      ∃ results, alist_get r.json_response "result" = some (Json.obj results) ∧
        alist_get results "error_message" = some (Json.str f.message) := by
  cases hep : f.error_parameters with
  | none =>
    have heq : CommandParser.command_error f c now =
        Except.ok (c.build_command_response false
          [("error_message", Json.str f.message)] now) := by
      rw [command_error_eq, hep]
    obtain ⟨h1, h2, h3, h4⟩ :=
      build_command_response_fields c false [("error_message", Json.str f.message)] now
    refine ⟨_, heq, h1, h2, by simpa using h3, _, h4, ?_⟩
    simp [alist_get]
  | some op =>
    cases op with
    | none => exact absurd hep h
    | some params =>
      have heq : CommandParser.command_error f c now =
          Except.ok (c.build_command_response false
            (py_dict_merge params [("error_message", Json.str f.message)]) now) := by
        rw [command_error_eq, hep]
      obtain ⟨h1, h2, h3, h4⟩ :=
        build_command_response_fields c false
          (py_dict_merge params [("error_message", Json.str f.message)]) now
      refine ⟨_, heq, h1, h2, by simpa using h3, _, h4, ?_⟩
      simp [py_dict_merge, alist_get]

theorem run_command_stage_eq (system_handler : CommandHandler) (c : Command) (now : Int) :
    CommandParser.run_command_stage system_handler c now =
      (if truthy c.device_id then Except.error unboundLocalCommandHandler
       else if !(system_handler.has_command (command_name_of c)) then
         Except.error (commandNotFoundInHandler "system" (command_name_of c))
       else
         match system_handler.run_command (command_name_of c) c with
         | Except.ok command_results =>
             Except.ok (c.build_command_response true command_results now)
         | Except.error f => CommandParser.command_error f c now) := rfl

theorem run_command_stage_cases (system_handler : CommandHandler) (c : Command) (now : Int) :
    (truthy c.device_id = false ∧
     system_handler.has_command (command_name_of c) = true ∧
     (∃ results, system_handler.run_command (command_name_of c) c = Except.ok results) ∧
     (∃ r, CommandParser.run_command_stage system_handler c now = Except.ok r ∧
        alist_get r.json_response "received_at" = some (Json.num c.time_received) ∧
        alist_get r.json_response "completed_at" = some (Json.num now) ∧
        alist_get r.json_response "status" = some (Json.str "okay"))) ∨
    ((truthy c.device_id = true ∨ system_handler.has_command (command_name_of c) = false ∨
      (∃ f0, system_handler.run_command (command_name_of c) c = Except.error f0)) ∧
     ((∃ r, CommandParser.run_command_stage system_handler c now = Except.ok r ∧
        alist_get r.json_response "received_at" = some (Json.num c.time_received) ∧
        alist_get r.json_response "completed_at" = some (Json.num now) ∧
        alist_get r.json_response "status" = some (Json.str "error") ∧
        ∃ results, alist_get r.json_response "result" = some (Json.obj results) ∧
          (alist_get results "error_message").isSome = true) ∨
      (∃ f, CommandParser.run_command_stage system_handler c now = Except.error f ∧
        f.error_parameters ≠ some none))) := by
  by_cases hdev : truthy c.device_id = true
  · have hstage : CommandParser.run_command_stage system_handler c now
        = Except.error unboundLocalCommandHandler := by
      rw [run_command_stage_eq, if_pos hdev]
    right
    refine ⟨Or.inl hdev, Or.inr ?_⟩
    exact ⟨_, hstage, by rw [unboundLocalCommandHandler]; simp⟩
  · have hdevf : truthy c.device_id = false := by
      revert hdev
      cases truthy c.device_id <;> simp
    by_cases hhas : system_handler.has_command (command_name_of c) = true
    · cases hrun : system_handler.run_command (command_name_of c) c with
      | ok command_results =>
        have hstage : CommandParser.run_command_stage system_handler c now
            = Except.ok (c.build_command_response true command_results now) := by
          rw [run_command_stage_eq, if_neg hdev]
          simp only [hhas, Bool.not_true]
          rw [if_neg Bool.false_ne_true, hrun]
        left
        obtain ⟨h1, h2, h3, h4⟩ := build_command_response_fields c true command_results now
        exact ⟨hdevf, hhas, ⟨command_results, rfl⟩, _, hstage, h1, h2, by simpa using h3⟩
      | error f =>
        have hstage : CommandParser.run_command_stage system_handler c now
            = CommandParser.command_error f c now := by
          rw [run_command_stage_eq, if_neg hdev]
          simp only [hhas, Bool.not_true]
          rw [if_neg Bool.false_ne_true, hrun]
        right
        refine ⟨Or.inr (Or.inr ⟨f, rfl⟩), ?_⟩
        cases hf : f.error_parameters with
        | some op =>
          cases op with
          | none =>
            right
            have heq : CommandParser.run_command_stage system_handler c now
                = Except.error attributeErrorNoneItems := by
              rw [hstage, command_error_eq, hf]
            exact ⟨_, heq, by rw [attributeErrorNoneItems]; simp⟩
          | some params =>
            left
            obtain ⟨r, hok, h1, h2, h3, results, h4, h5⟩ :=
              command_error_envelope f c now (by rw [hf]; simp)
            exact ⟨r, by rw [hstage]; exact hok, h1, h2, h3, results, h4, by rw [h5]; rfl⟩
        | none =>
          left
          obtain ⟨r, hok, h1, h2, h3, results, h4, h5⟩ :=
            command_error_envelope f c now (by rw [hf]; simp)
          exact ⟨r, by rw [hstage]; exact hok, h1, h2, h3, results, h4, by rw [h5]; rfl⟩
    · have hhasf : system_handler.has_command (command_name_of c) = false := by
        revert hhas
        cases system_handler.has_command (command_name_of c) <;> simp
      have hstage : CommandParser.run_command_stage system_handler c now
          = Except.error (commandNotFoundInHandler "system" (command_name_of c)) := by
        rw [run_command_stage_eq, if_neg hdev]
        simp only [hhasf, Bool.not_false]
        rw [if_pos trivial]
      right
      refine ⟨Or.inr (Or.inl hhasf), Or.inr ?_⟩
      exact ⟨_, hstage, by rw [commandNotFoundInHandler]; simp⟩

theorem parse_command_eq (system_handler : CommandHandler) (raw : Option Json)
    (request : Option String) (t now : Int) :
    CommandParser.parse_command system_handler raw request t now =
      (match (Command.init request t raw).validate_command with
       | (valid_command, Except.ok _) =>
          (match CommandParser.run_command_stage system_handler valid_command now with
           | Except.ok response => Except.ok response
           | Except.error f => CommandParser.command_error f valid_command now)
       | (failed_command, Except.error f) =>
           CommandParser.command_error f failed_command now) := rfl

theorem validate_command_malformed (request : Option String) (t : Int) :
    (Command.init request t none).validate_command =
      (Command.init request t none, Except.error commandMalformedFailure) := rfl

theorem validate_command_invalid (request : Option String) (t : Int) (j : Json)
    (h : command_schema_valid j = false) :
    (Command.init request t (some j)).validate_command =
      ({ request := request, time_received := t, command_raw := some j, command_json := some j,
         valid := false, command := none, device_id := none,
         parameters := some (Json.obj []) }, Except.error commandInvalidSchemaFailure) := by
  rw [Command.validate_command]
  simp [Command.init, h]

theorem validate_command_time (request : Option String) (t : Int) (raw : Option Json)
    (c1 : Command) (res : Except Failure Bool)
    (h : (Command.init request t raw).validate_command = (c1, res)) :
    c1.time_received = t := by
  cases raw with
  | none =>
    rw [validate_command_malformed] at h
    cases h
    rfl
  | some j =>
    by_cases hsch : command_schema_valid j = true
    · rw [validate_command_of_schema_valid request t j hsch] at h
      cases h
      rfl
    · have hschf : command_schema_valid j = false := by
        revert hsch
        cases command_schema_valid j <;> simp
      rw [validate_command_invalid request t j hschf] at h
      cases h
      rfl

theorem validate_command_failure_params (request : Option String) (t : Int) (raw : Option Json)
    (c1 : Command) (f : Failure)
    (h : (Command.init request t raw).validate_command = (c1, Except.error f)) :
    f.error_parameters = none := by
  cases raw with
  | none =>
    rw [validate_command_malformed] at h
    cases h
    rfl
  | some j =>
    by_cases hsch : command_schema_valid j = true
    · rw [validate_command_of_schema_valid request t j hsch] at h
      exact absurd (congrArg Prod.snd h) (by simp)
    · have hschf : command_schema_valid j = false := by
        revert hsch
        cases command_schema_valid j <;> simp
      rw [validate_command_invalid request t j hschf] at h
      cases h
      rfl

theorem validate_command_ok_true (request : Option String) (t : Int) (raw : Option Json)
    (c1 : Command) (b : Bool)
    (h : (Command.init request t raw).validate_command = (c1, Except.ok b)) : b = true := by
  cases raw with
  | none =>
    rw [validate_command_malformed] at h
    exact Except.noConfusion (congrArg Prod.snd h)
  | some j =>
    by_cases hsch : command_schema_valid j = true
    · rw [validate_command_of_schema_valid request t j hsch] at h
      have h2 := congrArg Prod.snd h
      injection h2 with h3
      exact h3.symm
    · have hschf : command_schema_valid j = false := by
        revert hsch
        cases command_schema_valid j <;> simp
      rw [validate_command_invalid request t j hschf] at h
      exact Except.noConfusion (congrArg Prod.snd h)

/-- C5: for every command processed by parse_command, the final value
delivered on the returned callback chain is an Except.ok response envelope
with the correlation timestamps — no failure ever escapes on the errback
chain — and whenever the run is not the fully successful path (that is, on
an error of any origin: malformed input, schema violation, a device-targeted
command hitting the unbound handler, an unresolved handler method, or an
exception raised by the executing handler, with or without error metadata),
that envelope carries status error and a result payload containing the error
message; status okay is delivered exactly on the successful path. -/
theorem C5_every_error_becomes_response (system_handler : CommandHandler)
    (raw_command : Option Json) (request : Option String) (t now : Int) :
    ∃ r, CommandParser.parse_command system_handler raw_command request t now = Except.ok r ∧
      alist_get r.json_response "received_at" = some (Json.num t) ∧
      alist_get r.json_response "completed_at" = some (Json.num now) ∧
      (command_execution_succeeds system_handler raw_command request t →
        alist_get r.json_response "status" = some (Json.str "okay")) ∧
      (¬ command_execution_succeeds system_handler raw_command request t →
        alist_get r.json_response "status" = some (Json.str "error") ∧
        ∃ results, alist_get r.json_response "result" = some (Json.obj results) ∧
          (alist_get results "error_message").isSome = true) := by
  rcases hv : (Command.init request t raw_command).validate_command with ⟨c1, vres⟩
  have htime := validate_command_time request t raw_command c1 vres hv
  cases vres with
  | error f =>
    have hns : ¬ command_execution_succeeds system_handler raw_command request t := by
      rintro ⟨c2, hval, -, -, -, -⟩
      rw [hv] at hval
      exact Except.noConfusion (congrArg Prod.snd hval)
    have hparams := validate_command_failure_params request t raw_command c1 f hv
    have hpar : CommandParser.parse_command system_handler raw_command request t now =
        CommandParser.command_error f c1 now := by
      rw [parse_command_eq, hv]
    obtain ⟨r, hok, h1, h2, h3, results, h4, h5⟩ :=
      command_error_envelope f c1 now (by rw [hparams]; simp)
    rw [htime] at h1
    refine ⟨r, by rw [hpar]; exact hok, h1, h2, fun hsucc => absurd hsucc hns, fun _ => ?_⟩
    exact ⟨h3, results, h4, by rw [h5]; rfl⟩
  | ok b =>
    have hb : b = true := validate_command_ok_true request t raw_command c1 b hv
    subst hb
    have hpar : CommandParser.parse_command system_handler raw_command request t now =
        (match CommandParser.run_command_stage system_handler c1 now with
         | Except.ok response => Except.ok response
         | Except.error f => CommandParser.command_error f c1 now) := by
      rw [parse_command_eq, hv]
    rcases run_command_stage_cases system_handler c1 now with
      ⟨hdev, hhas, ⟨results0, hrun⟩, r, hok, h1, h2, h3⟩ | ⟨horigin, hcase⟩
    · have hsucc : command_execution_succeeds system_handler raw_command request t :=
        ⟨c1, hv, hdev, hhas, results0, hrun⟩
      rw [htime] at h1
      exact ⟨r, by rw [hpar, hok], h1, h2, fun _ => h3, fun hns => absurd hsucc hns⟩
    · have hns : ¬ command_execution_succeeds system_handler raw_command request t := by
        rintro ⟨c2, hval, hdev2, hhas2, results2, hrun2⟩
        rw [hv] at hval
        have hc : c2 = c1 := (congrArg Prod.fst hval).symm
        subst hc
        rcases horigin with hdev1 | hhas1 | ⟨f0, hrun1⟩
        · rw [hdev2] at hdev1
          exact Bool.noConfusion hdev1
        · rw [hhas2] at hhas1
          exact Bool.noConfusion hhas1
        · rw [hrun2] at hrun1
          exact Except.noConfusion hrun1
      rcases hcase with ⟨r, hok, h1, h2, h3, results, h4, h5⟩ | ⟨f, herr, hf⟩
      · rw [htime] at h1
        exact ⟨r, by rw [hpar, hok], h1, h2, fun hsucc => absurd hsucc hns,
          fun _ => ⟨h3, results, h4, h5⟩⟩
      · have hpar2 : CommandParser.parse_command system_handler raw_command request t now =
            CommandParser.command_error f c1 now := by
          rw [hpar, herr]
        obtain ⟨r, hok, h1, h2, h3, results, h4, h5⟩ := command_error_envelope f c1 now hf
        rw [htime] at h1
        exact ⟨r, by rw [hpar2]; exact hok, h1, h2, fun hsucc => absurd hsucc hns,
          fun _ => ⟨h3, results, h4, by rw [h5]; rfl⟩⟩

/-- Witness for C5 at a malformed command: the run is not the successful
path, so the delivered envelope has status error and carries an error
message. -/
theorem C5_every_error_becomes_response_witness :
    ∃ r, CommandParser.parse_command okSystemHandler none none 0 1 = Except.ok r ∧
      alist_get r.json_response "status" = some (Json.str "error") ∧
      ∃ results, alist_get r.json_response "result" = some (Json.obj results) ∧
        (alist_get results "error_message").isSome = true := by
  obtain ⟨r, hok, h1, h2, hsucc, herr⟩ :=
    C5_every_error_becomes_response okSystemHandler none none 0 1
  have hns : ¬ command_execution_succeeds okSystemHandler none none 0 := by
    rintro ⟨c1, hval, -, -, -, -⟩
    rw [validate_command_malformed] at hval
    exact Except.noConfusion (congrArg Prod.snd hval)
  obtain ⟨hs, results, h4, h5⟩ := herr hns
  exact ⟨r, hok, hs, results, h4, h5⟩

theorem C4_device_command_hits_unbound_handler :
    CommandParser.parse_command okSystemHandler deviceTargetedCommand none 0 1 =
      Except.ok
        { request := none,
          json_response :=
            [("received_at", Json.num 0), ("completed_at", Json.num 1),
             ("status", Json.str "error"),
             ("device_id", Json.str "test_device"),
             ("result", Json.obj [("error_message", Json.str unboundLocalCommandHandler.message)])] } ∧
    okSystemHandler.has_command "test_command" = true :=
  ⟨rfl, rfl⟩

theorem alist_get_cons {α : Type} (k : String) (v : α) (rest : List (String × α)) (key : String) :
    alist_get ((k, v) :: rest) key = if k = key then some v else alist_get rest key := rfl

theorem update_device_cons (k : String) (v : Driver) (rest : Registry) (key : String) (d : Driver) :
    update_device ((k, v) :: rest) key d =
      if k = key then (k, d) :: rest else (k, v) :: update_device rest key d := rfl

theorem free_devices_cons (reg : Registry) (i : String) (rest : List String) :
    free_devices reg (i :: rest) =
      free_devices
        (match lookup_device reg i with
         | some d => update_device reg i d.free_device
         | none => reg) rest := rfl

theorem lookup_update_eq (reg : Registry) (i : String) (d d0 : Driver)
    (h : lookup_device reg i = some d0) :
    lookup_device (update_device reg i d) i = some d := by
  induction reg with
  | nil => exact Option.noConfusion h
  | cons hd rest ih =>
    obtain ⟨k, v⟩ := hd
    rw [lookup_device, alist_get_cons] at h
    by_cases hk : k = i
    · rw [update_device_cons, if_pos hk, lookup_device, alist_get_cons, if_pos hk]
    · rw [if_neg hk] at h
      rw [update_device_cons, if_neg hk, lookup_device, alist_get_cons, if_neg hk]
      exact ih h

theorem lookup_update_ne (reg : Registry) (i j : String) (d : Driver) (h : j ≠ i) :
    lookup_device (update_device reg i d) j = lookup_device reg j := by
  induction reg with
  | nil => rfl
  | cons hd rest ih =>
    obtain ⟨k, v⟩ := hd
    by_cases hk : k = i
    · have hkj : ¬ (k = j) := fun hkj => h (hkj.symm.trans hk)
      rw [update_device_cons, if_pos hk, lookup_device, alist_get_cons,
        lookup_device, alist_get_cons, if_neg hkj, if_neg hkj]
    · rw [update_device_cons, if_neg hk, lookup_device, alist_get_cons,
        lookup_device, alist_get_cons]
      by_cases hkj : k = j
      · rw [if_pos hkj, if_pos hkj]
      · rw [if_neg hkj, if_neg hkj]
        exact ih

theorem update_self (reg : Registry) (i : String) (d : Driver)
    (h : lookup_device reg i = some d) : update_device reg i d = reg := by
  induction reg with
  | nil => rfl
  | cons hd rest ih =>
    obtain ⟨k, v⟩ := hd
    rw [lookup_device, alist_get_cons] at h
    by_cases hk : k = i
    · rw [if_pos hk] at h
      cases h
      rw [update_device_cons, if_pos hk]
    · rw [if_neg hk] at h
      rw [update_device_cons, if_neg hk, ih h]

theorem update_update (reg : Registry) (i : String) (d1 d2 : Driver) :
    update_device (update_device reg i d1) i d2 = update_device reg i d2 := by
  induction reg with
  | nil => rfl
  | cons hd rest ih =>
    obtain ⟨k, v⟩ := hd
    by_cases hk : k = i
    · rw [update_device_cons, if_pos hk, update_device_cons, if_pos hk,
        update_device_cons, if_pos hk]
    · rw [update_device_cons, if_neg hk, update_device_cons, if_neg hk,
        update_device_cons, if_neg hk, ih]

theorem RegInv_update (reg : Registry) (i : String) (d0 d1 : Driver)
    (hreg : RegInv reg) (hl : lookup_device reg i = some d0) (hinv : d1.inv) :
    RegInv (update_device reg i d1) := by
  intro j e he
  by_cases hj : j = i
  · subst hj
    rw [lookup_update_eq reg j d1 d0 hl] at he
    cases he
    exact hinv
  · rw [lookup_update_ne reg i j d1 hj] at he
    exact hreg j e he

/-- A successful reserve_device undoes exactly under free_device: the
rollback of reserve_pipeline restores the original device state. -/
theorem Driver.free_reserve_inverse (d d1 : Driver) (hinv : d.inv)
    (h : d.reserve_device = Except.ok d1) : d1.free_device = d := by
  obtain ⟨h0, hexc, hconc⟩ := hinv
  obtain ⟨cb, uc, lk⟩ := d
  simp only at h0 hexc hconc
  cases cb with
  | false =>
    cases lk with
    | true => simp [Driver.reserve_device, Driver.is_locked] at h
    | false =>
      simp [Driver.reserve_device, Driver.is_locked] at h
      rw [← h]
      simp [Driver.free_device]
      omega
  | true =>
    simp [Driver.reserve_device, Driver.is_locked] at h
    rw [← h]
    have hlk : lk = false := hconc rfl
    subst hlk
    simp [Driver.free_device]
    omega

theorem Driver.reserve_ok_reserved (d d1 : Driver) (hinv : d.inv)
    (h : d.reserve_device = Except.ok d1) : d1.reserved_state := by
  obtain ⟨h0, _, _⟩ := hinv
  obtain ⟨hrlock, hrfree, hrconc⟩ := Driver.reserve_spec d
  cases hb : d.allow_concurrent_use with
  | false =>
    cases hl : d.locked with
    | true =>
      rw [hrlock hb hl] at h
      exact absurd h (by simp)
    | false =>
      rw [hrfree hb hl] at h
      cases h
      refine ⟨fun _ => rfl, ?_⟩
      show 0 < d.use_count + 1
      omega
  | true =>
    rw [hrconc hb] at h
    cases h
    refine ⟨fun habs => Bool.noConfusion habs, ?_⟩
    show 0 < d.use_count + 1
    omega

theorem Driver.reserve_preserves_reserved (d d1 : Driver) (hres : d.reserved_state)
    (h : d.reserve_device = Except.ok d1) : d1.reserved_state := by
  obtain ⟨hlocked, hpos⟩ := hres
  obtain ⟨hrlock, hrfree, hrconc⟩ := Driver.reserve_spec d
  cases hb : d.allow_concurrent_use with
  | false =>
    rw [hrlock hb (hlocked hb)] at h
    exact absurd h (by simp)
  | true =>
    rw [hrconc hb] at h
    cases h
    refine ⟨fun habs => Bool.noConfusion habs, ?_⟩
    show 0 < d.use_count + 1
    omega

theorem reserve_devices_spec (ids : List String) (reg0 : Registry) :
    ∀ reg acquired, RegInv reg → free_devices reg acquired = reg0 →
      ((reserve_devices_in_order reg ids acquired).success = false →
        (reserve_devices_in_order reg ids acquired).registry = reg0) ∧
      ((reserve_devices_in_order reg ids acquired).success = true →
        (∀ j e, lookup_device reg j = some e → e.reserved_state →
          ∃ e2, lookup_device (reserve_devices_in_order reg ids acquired).registry j = some e2 ∧
            e2.reserved_state) ∧
        (∀ i ∈ ids, ∃ e2,
          lookup_device (reserve_devices_in_order reg ids acquired).registry i = some e2 ∧
            e2.reserved_state)) := by
  induction ids with
  | nil =>
    intro reg acquired hreg hroll
    constructor
    · intro hfail
      exact Bool.noConfusion hfail
    · intro _
      refine ⟨?_, ?_⟩
      · intro j e hj hres
        exact ⟨e, hj, hres⟩
      · intro i hi
        exact absurd hi (List.not_mem_nil i)
  | cons i rest ih =>
    intro reg acquired hreg hroll
    cases hl : lookup_device reg i with
    | none =>
      have hres : reserve_devices_in_order reg (i :: rest) acquired =
          { registry := free_devices reg acquired, success := false } := by
        simp only [reserve_devices_in_order, hl]
      constructor
      · intro _
        rw [hres]
        exact hroll
      · intro hsucc
        rw [hres] at hsucc
        exact Bool.noConfusion hsucc
    | some d =>
      cases hr : d.reserve_device with
      | error e =>
        have hres : reserve_devices_in_order reg (i :: rest) acquired =
            { registry := free_devices reg acquired, success := false } := by
          simp only [reserve_devices_in_order, hl, hr]
        constructor
        · intro _
          rw [hres]
          exact hroll
        · intro hsucc
          rw [hres] at hsucc
          exact Bool.noConfusion hsucc
      | ok d1 =>
        have hstep : reserve_devices_in_order reg (i :: rest) acquired =
            reserve_devices_in_order (update_device reg i d1) rest (i :: acquired) := by
          simp only [reserve_devices_in_order, hl, hr]
        have hdinv : d.inv := hreg i d hl
        have hd1inv : d1.inv := Driver.inv_reserve d d1 hdinv hr
        have hreg1 : RegInv (update_device reg i d1) := RegInv_update reg i d d1 hreg hl hd1inv
        have hroll1 : free_devices (update_device reg i d1) (i :: acquired) = reg0 := by
          simp only [free_devices_cons, lookup_update_eq reg i d1 d hl]
          rw [Driver.free_reserve_inverse d d1 hdinv hr, update_update reg i d1 d,
            update_self reg i d hl]
          exact hroll
        obtain ⟨ihfail, ihsucc⟩ := ih (update_device reg i d1) (i :: acquired) hreg1 hroll1
        constructor
        · intro hfail
          rw [hstep] at hfail ⊢
          exact ihfail hfail
        · intro hsucc
          rw [hstep] at hsucc
          obtain ⟨hpres, hmem⟩ := ihsucc hsucc
          constructor
          · intro j e hj hres
            by_cases hji : j = i
            · subst hji
              rw [hl] at hj
              cases hj
              have hd1res : d1.reserved_state :=
                Driver.reserve_preserves_reserved d d1 hres hr
              obtain ⟨e2, he2, he2res⟩ := hpres j d1 (lookup_update_eq reg j d1 d hl) hd1res
              rw [hstep]
              exact ⟨e2, he2, he2res⟩
            · obtain ⟨e2, he2, he2res⟩ :=
                hpres j e (by rw [lookup_update_ne reg i j d1 hji]; exact hj) hres
              rw [hstep]
              exact ⟨e2, he2, he2res⟩
          · intro i2 hi2
            rcases List.mem_cons.mp hi2 with heq | hmem2
            · subst heq
              have hd1res : d1.reserved_state := Driver.reserve_ok_reserved d d1 hdinv hr
              obtain ⟨e2, he2, he2res⟩ := hpres i2 d1 (lookup_update_eq reg i2 d1 d hl) hd1res
              rw [hstep]
              exact ⟨e2, he2, he2res⟩
            · rw [hstep]
              exact hmem i2 hmem2

theorem reserve_pipeline_eq (p : Pipeline) (reg : Registry) :
    p.reserve_pipeline reg =
      (if p.in_use then
        { registry := reg, pipeline := p, error := some PipelineError.pipelineInUse }
       else if (reserve_devices_in_order reg p.device_ids []).success then
        { registry := (reserve_devices_in_order reg p.device_ids []).registry,
          pipeline := { p with in_use := true }, error := none }
       else
        { registry := (reserve_devices_in_order reg p.device_ids []).registry,
          pipeline := { p with in_use := false },
          error := some PipelineError.pipelineInUse }) := rfl

/-- C1: pipeline reservation is all-or-nothing.  For a pipeline whose in_use
flag is false, over a registry whose devices satisfy the driver invariant:
when the call raises PipelineInUse (a DeviceInUse was hit) the registry is
exactly as before the call (every device reserved earlier in the attempt was
freed) and in_use is false; when no error is raised, in_use is true and
every constituent device holds a reservation. -/
theorem C1_reserve_pipeline_all_or_nothing (p : Pipeline) (reg : Registry)
    (hp : p.in_use = false) (hreg : RegInv reg) :
    ((p.reserve_pipeline reg).error = some PipelineError.pipelineInUse →
      (p.reserve_pipeline reg).registry = reg ∧
      (p.reserve_pipeline reg).pipeline.in_use = false) ∧
    ((p.reserve_pipeline reg).error = none →
      (p.reserve_pipeline reg).pipeline.in_use = true ∧
      ∀ i ∈ p.device_ids, ∃ d2,
        lookup_device (p.reserve_pipeline reg).registry i = some d2 ∧ d2.reserved_state) := by
  obtain ⟨hfail, hsucc⟩ := reserve_devices_spec p.device_ids reg reg [] hreg rfl
  rw [reserve_pipeline_eq]
  simp only [hp, Bool.false_eq_true, if_false]
  cases hs : (reserve_devices_in_order reg p.device_ids []).success with
  | true =>
    rw [if_pos rfl]
    constructor
    · intro habs
      exact Option.noConfusion habs
    · intro _
      obtain ⟨_, hmem⟩ := hsucc hs
      exact ⟨rfl, hmem⟩
  | false =>
    rw [if_neg Bool.false_ne_true]
    constructor
    · intro _
      exact ⟨hfail hs, rfl⟩
    · intro habs
      exact Option.noConfusion habs

/-- Witness for C1: the second device is already reserved, so the attempt
rolls back the first device and the registry is exactly the original one. -/
theorem C1_reserve_pipeline_all_or_nothing_witness :
    (demoPipeline.reserve_pipeline demoRegistry).registry = demoRegistry ∧
    (demoPipeline.reserve_pipeline demoRegistry).pipeline.in_use = false := by
  have hreg : RegInv demoRegistry := by
    intro j e he
    rw [demoRegistry, lookup_device, alist_get_cons] at he
    by_cases h1 : "test_device1" = j
    · rw [if_pos h1] at he
      cases he
      exact Driver.inv_init false
    · rw [if_neg h1, alist_get_cons] at he
      by_cases h3 : "test_device3" = j
      · rw [if_pos h3] at he
        cases he
        exact ⟨by decide, fun _ => ⟨by decide, by decide⟩, fun habs => Bool.noConfusion habs⟩
      · rw [if_neg h3] at he
        exact Option.noConfusion he
  exact (C1_reserve_pipeline_all_or_nothing demoPipeline demoRegistry rfl hreg).1 rfl

end Mercury2
